import Mathlib

/-!
Shallow embedding of the countdown timer component in src/src/main.jsx
(the feature-complete variant with persisted settings and the audio,
system-notification and vibration completion channels).  JavaScript
numbers are modelled as rationals, the null sentinel held by timeLeft as
an Option, and the browser environment (Notification API and its
permission, vibration support, audio element, device class) as an
explicit record of capabilities.
-/

namespace SimpleTimer

/-- JSON value, as produced by JSON.parse. -/
inductive JsonVal : Type where
  | jnull : JsonVal
  | jbool : Bool → JsonVal
  | jnum : ℚ → JsonVal
  | jstr : String → JsonVal
  | jarr : List JsonVal → JsonVal
  | jobj : List (String × JsonVal) → JsonVal

/-- JavaScript value read off an object property: either a JSON value or
undefined (property absent). -/
inductive JSVal : Type where
  | undefined : JSVal
  | val : JsonVal → JSVal

/-- Possible states of the persisted timerSettings record in localStorage
as seen by getSavedTimerState (main.jsx:30-42): the item can be absent
(getItem returns null), the empty string (falsy, so parsing is skipped),
a string JSON.parse throws on, or a string parsing to a JSON value. -/
inductive StoredItem : Type where
  | missing : StoredItem
  | emptyString : StoredItem
  | malformed : StoredItem
  | parsed : JsonVal → StoredItem

/-- Property lookup on a JS object literal built from a JSON field list:
a later duplicate key overwrites an earlier one and an absent key reads
as undefined. -/
def jsGet (fields : List (String × JsonVal)) (k : String) : JSVal :=
  fields.foldl (fun acc kv => if kv.1 = k then .val kv.2 else acc) .undefined

/-- Embedding of getSavedTimerState (main.jsx:30-42).  Destructuring the
result of JSON.parse(savedState) throws only when that result is null
(the error is caught and the default is returned); any other parsed
value yields its minutes and seconds properties, which are undefined
unless the value is an object carrying them. -/
def getSavedTimerState : StoredItem → JSVal × JSVal
  | .missing => (.val (.jnum 1), .val (.jnum 0))
  | .emptyString => (.val (.jnum 1), .val (.jnum 0))
  | .malformed => (.val (.jnum 1), .val (.jnum 0))
  | .parsed .jnull => (.val (.jnum 1), .val (.jnum 0))
  | .parsed (.jobj fields) => (jsGet fields "minutes", jsGet fields "seconds")
  | .parsed _ => (.undefined, .undefined)

/-- Embedding of the settings-save effect (main.jsx:80-86): the selection
is serialised as the object with the minutes and seconds keys, and a
later reload parses the stored string back to that object. -/
def saveTimerSettings (minutes seconds : ℚ) : StoredItem :=
  .parsed (.jobj [("minutes", .jnum minutes), ("seconds", .jnum seconds)])

/-- Browser capabilities the component consults: presence of the
Notification API and whether its permission is granted, presence of the
vibration API, the mobile user-agent flag (component state isMobile,
set from the environment in main.jsx:57-68), whether the audio element
reference is non-null, and whether play() rejects (for example under an
autoplay policy). -/
structure Env : Type where
  notifInWindow : Bool
  notifPermissionGranted : Bool
  vibrateInNavigator : Bool
  isMobile : Bool
  audioPresent : Bool
  audioPlayRejects : Bool

/-- React state of the Timer component (main.jsx:44-55) together with the
observable state of the audio element: minutes and seconds hold the
selection, timeLeft the remaining seconds or the null sentinel, running
the armed flag, and originalTime the reference duration. -/
structure TimerState : Type where
  minutes : ℚ
  seconds : ℚ
  timeLeft : Option ℚ
  running : Bool
  originalTime : ℚ
  audioVolume : ℚ
  audioPlaying : Bool
  audioCurrentTime : ℚ

/-- Record of which completion signal channels ran during notifyUser:
whether a system notification was shown, whether a vibration was
triggered, and whether audio playback was attempted. -/
structure NotifyResult : Type where
  notificationShown : Bool
  vibrated : Bool
  audioPlayAttempted : Bool

/-- Component state right after the initial render, given the loaded
numeric selection (useState initialisers, main.jsx:44-50): no countdown,
not running, reference duration 60. -/
def initTimer (m0 s0 : ℚ) : TimerState :=
  { minutes := m0, seconds := s0, timeLeft := none, running := false,
    originalTime := 60, audioVolume := 1, audioPlaying := false,
    audioCurrentTime := 0 }

/-- Embedding of startTimer (main.jsx:89-96): when the selected total is
positive it arms the countdown with timeLeft and originalTime both equal
to that total; otherwise it leaves the state alone. -/
def startTimer (s : TimerState) : TimerState :=
  if 0 < s.minutes * 60 + s.seconds then
    { s with timeLeft := some (s.minutes * 60 + s.seconds),
             originalTime := s.minutes * 60 + s.seconds,
             running := true }
  else s

/-- Start as the user can invoke it: the button is disabled while running
or when the selection is (0, 0) (main.jsx:222-228), and otherwise runs
startTimer. -/
def pressStart (s : TimerState) : TimerState :=
  if s.running ∨ (s.minutes = 0 ∧ s.seconds = 0) then s else startTimer s

/-- Embedding of stopTimer (main.jsx:99-108): clears running and timeLeft
and, when the audio element exists, pauses it and rewinds it to 0. -/
def stopTimer (env : Env) (s : TimerState) : TimerState :=
  if env.audioPresent then
    { s with running := false, timeLeft := none,
             audioPlaying := false, audioCurrentTime := 0 }
  else
    { s with running := false, timeLeft := none }

/-- Embedding of notifyUser (main.jsx:111-133): shows a notification when
the API is present and permission is granted, vibrates when the API is
present on a mobile device, and, when the audio element exists, sets its
volume to 0.7 and attempts playback, a rejected play() being caught by
the attached handler. -/
def notifyUser (env : Env) (s : TimerState) : TimerState × NotifyResult :=
  if env.audioPresent then
    ({ s with audioVolume := 7/10, audioPlaying := !env.audioPlayRejects },
     { notificationShown := env.notifInWindow && env.notifPermissionGranted,
       vibrated := env.vibrateInNavigator && env.isMobile,
       audioPlayAttempted := true })
  else
    (s, { notificationShown := env.notifInWindow && env.notifPermissionGranted,
          vibrated := env.vibrateInNavigator && env.isMobile,
          audioPlayAttempted := false })

/-- JavaScript comparison timeLeft > 0: false when timeLeft is null. -/
def jsGtZero : Option ℚ → Bool
  | some t => decide (0 < t)
  | none => false

/-- JavaScript strict comparison timeLeft === 0: false when null. -/
def jsEqZero : Option ℚ → Bool
  | some t => decide (t = 0)
  | none => false

/-- Embedding of the countdown effect body (main.jsx:136-159): while
running with positive timeLeft it (re)schedules the interval and leaves
the state alone; when timeLeft is exactly 0 while running it fires the
notification bundle once and clears running; otherwise it does nothing.
The returned option reports whether the completion bundle ran. -/
def countdownEffect (env : Env) (s : TimerState) : TimerState × Option NotifyResult :=
  if s.running && jsGtZero s.timeLeft then (s, none)
  else if jsEqZero s.timeLeft && s.running then
    ({ (notifyUser env s).1 with running := false }, some (notifyUser env s).2)
  else (s, none)

/-- One interval firing (main.jsx:143-145) followed by the re-run of the
countdown effect: timeLeft is decremented and the effect body then
observes the new state. -/
def tick (env : Env) (s : TimerState) : TimerState × Option NotifyResult :=
  countdownEffect env { s with timeLeft := s.timeLeft.map (fun t => t - 1) }

/-- State after one tick. -/
def tickState (env : Env) (s : TimerState) : TimerState :=
  (tick env s).1

/-- State after n uninterrupted ticks. -/
def ticksN (env : Env) : Nat → TimerState → TimerState
  | 0, s => s
  | n + 1, s => ticksN env n (tickState env s)

/-- Embedding of the progress computation (main.jsx:162). -/
def progress (s : TimerState) : ℚ :=
  match s.timeLeft with
  | some t => t / s.originalTime * 100
  | none => 100

/-! Preservation lemmas: the notification bundle touches only the audio
fields, and the effect body never changes the selection, timeLeft or the
reference duration. -/

lemma notifyUser_fst (env : Env) (s : TimerState) :
    (notifyUser env s).1.minutes = s.minutes ∧
    (notifyUser env s).1.seconds = s.seconds ∧
    (notifyUser env s).1.timeLeft = s.timeLeft ∧
    (notifyUser env s).1.running = s.running ∧
    (notifyUser env s).1.originalTime = s.originalTime := by
  unfold notifyUser
  cases env.audioPresent <;> simp

lemma countdownEffect_fst (env : Env) (s : TimerState) :
    (countdownEffect env s).1.minutes = s.minutes ∧
    (countdownEffect env s).1.seconds = s.seconds ∧
    (countdownEffect env s).1.timeLeft = s.timeLeft ∧
    (countdownEffect env s).1.originalTime = s.originalTime := by
  unfold countdownEffect
  split
  · exact ⟨rfl, rfl, rfl, rfl⟩
  · split
    · have h := notifyUser_fst env s
      exact ⟨h.1, h.2.1, h.2.2.1, h.2.2.2.2⟩
    · exact ⟨rfl, rfl, rfl, rfl⟩

lemma tickState_fields (env : Env) (s : TimerState) :
    (tickState env s).minutes = s.minutes ∧
    (tickState env s).seconds = s.seconds ∧
    (tickState env s).timeLeft = s.timeLeft.map (fun t => t - 1) ∧
    (tickState env s).originalTime = s.originalTime := by
  unfold tickState tick
  have h := countdownEffect_fst env { s with timeLeft := s.timeLeft.map (fun t => t - 1) }
  exact ⟨h.1, h.2.1, h.2.2.1, h.2.2.2⟩

lemma tickState_of_pos (env : Env) (s : TimerState) (t : ℚ)
    (hrun : s.running = true) (ht : s.timeLeft = some t) (hpos : 0 < t - 1) :
    tickState env s = { s with timeLeft := some (t - 1) } := by
  unfold tickState tick countdownEffect
  simp [ht, jsGtZero, hrun, hpos]

lemma tickState_complete (env : Env) (s : TimerState)
    (hrun : s.running = true) (ht : s.timeLeft = some 1) :
    (tickState env s).running = false ∧
    (tickState env s).timeLeft = some 0 ∧
    (tickState env s).originalTime = s.originalTime ∧
    (tick env s).2.isSome = true := by
  unfold tickState tick countdownEffect
  simp only [ht, Option.map_some]
  norm_num [jsGtZero, jsEqZero, hrun]
  exact ⟨(notifyUser_fst env _).2.2.1, (notifyUser_fst env _).2.2.2.2⟩

lemma ticksN_countdown (env : Env) :
    ∀ (N R : ℕ) (s : TimerState), s.running = true → s.timeLeft = some (R : ℚ) →
      N ≤ R →
      (ticksN env N s).timeLeft = some ((R : ℚ) - (N : ℚ)) ∧
      (ticksN env N s).originalTime = s.originalTime ∧
      (N < R → (ticksN env N s).running = true) ∧
      (N = R → 1 ≤ R → (ticksN env N s).running = false) := by
  intro N
  induction N with
  | zero =>
    intro R s hrun htl _
    exact ⟨by simpa using htl, rfl, fun _ => hrun, fun h0 h1 => by omega⟩
  | succ n ih =>
    intro R s hrun htl hN
    have hR1 : 1 ≤ R := by omega
    rcases eq_or_lt_of_le hR1 with hR | hR2
    · subst hR
      have hn : n = 0 := by omega
      subst hn
      have hc := tickState_complete env s hrun (by simpa using htl)
      refine ⟨?_, ?_, ?_, ?_⟩
      · show (tickState env s).timeLeft = _
        rw [hc.2.1]; norm_num
      · exact hc.2.2.1
      · intro h; omega
      · intro _ _; exact hc.1
    · have hcast : ((1 : ℚ)) < (R : ℚ) := by exact_mod_cast hR2
      have step := tickState_of_pos env s (R : ℚ) hrun htl (by linarith)
      have hs' : (1 : ℕ) ≤ R := hR1
      have htl' : ({ s with timeLeft := some ((R : ℚ) - 1) } : TimerState).timeLeft
          = some (((R - 1 : ℕ)) : ℚ) := by
        have : (((R - 1 : ℕ)) : ℚ) = (R : ℚ) - 1 := by
          push_cast [Nat.cast_sub hs']; ring
        simp [this]
      have ihr := ih (R - 1) { s with timeLeft := some ((R : ℚ) - 1) } hrun htl'
        (by omega)
      have hun : ticksN env (n + 1) s = ticksN env n { s with timeLeft := some ((R : ℚ) - 1) } := by
        show ticksN env n (tickState env s) = _
        rw [step]
      refine ⟨?_, ?_, ?_, ?_⟩
      · rw [hun, ihr.1]
        have : (((R - 1 : ℕ)) : ℚ) = (R : ℚ) - 1 := by
          push_cast [Nat.cast_sub hs']; ring
        rw [this]
        push_cast
        ring_nf
      · rw [hun, ihr.2.1]
      · intro h
        rw [hun]
        exact ihr.2.2.1 (by omega)
      · intro h _
        rw [hun]
        exact ihr.2.2.2 (by omega) (by omega)

lemma countdownEffect_not_running (env : Env) (s : TimerState)
    (h : s.running = false) : countdownEffect env s = (s, none) := by
  unfold countdownEffect
  simp [h]

lemma startTimer_of_pos (s : TimerState) (h : 0 < s.minutes * 60 + s.seconds) :
    (startTimer s).timeLeft = some (s.minutes * 60 + s.seconds) ∧
    (startTimer s).originalTime = s.minutes * 60 + s.seconds ∧
    (startTimer s).running = true := by
  unfold startTimer
  rw [if_pos h]
  exact ⟨rfl, rfl, rfl⟩

/-- Environment with every channel available and working. -/
def envA : Env :=
  { notifInWindow := true, notifPermissionGranted := true,
    vibrateInNavigator := true, isMobile := true,
    audioPresent := true, audioPlayRejects := false }

/-- Environment where the notification permission is denied, vibration is
absent and audio playback rejects. -/
def envFail : Env :=
  { notifInWindow := true, notifPermissionGranted := false,
    vibrateInNavigator := false, isMobile := true,
    audioPresent := true, audioPlayRejects := true }

/-- An armed mid-run state: 30 of 60 seconds left. -/
def stateArmed : TimerState :=
  { minutes := 1, seconds := 0, timeLeft := some 30, running := true,
    originalTime := 60, audioVolume := 1, audioPlaying := false,
    audioCurrentTime := 0 }

/-- An armed state one second before completion. -/
def stateOne : TimerState :=
  { minutes := 1, seconds := 0, timeLeft := some 1, running := true,
    originalTime := 60, audioVolume := 1, audioPlaying := false,
    audioCurrentTime := 0 }

/-- An armed state at the completion instant. -/
def stateZero : TimerState :=
  { minutes := 1, seconds := 0, timeLeft := some 0, running := true,
    originalTime := 60, audioVolume := 1, audioPlaying := false,
    audioCurrentTime := 0 }

/-- C1: for every selection (minutes, seconds) with minutes*60 + seconds
positive, invoking Start from the idle state sets remaining and the
reference duration to minutes*60 + seconds and arms the countdown. -/
theorem start_arms_with_total (st : TimerState) (m sec : ℕ)
    (_hidle : st.running = false) (hm : st.minutes = (m : ℚ))
    (hs : st.seconds = (sec : ℚ)) (hpos : 0 < m * 60 + sec) :
    (startTimer st).timeLeft = some (((m * 60 + sec : ℕ)) : ℚ) ∧
    (startTimer st).originalTime = ((m * 60 + sec : ℕ) : ℚ) ∧
    (startTimer st).running = true := by
  have htot : st.minutes * 60 + st.seconds = ((m * 60 + sec : ℕ) : ℚ) := by
    rw [hm, hs]; push_cast; ring
  have hpos' : (0 : ℚ) < st.minutes * 60 + st.seconds := by
    rw [htot]; exact_mod_cast hpos
  have h := startTimer_of_pos st hpos'
  exact ⟨by rw [h.1, htot], by rw [h.2.1, htot], h.2.2⟩

/-- Witness for C1 at the selection (0 minutes, 5 seconds). -/
theorem start_arms_with_total_witness :
    (startTimer (initTimer 0 5)).timeLeft = some (((0 * 60 + 5 : ℕ)) : ℚ) ∧
    (startTimer (initTimer 0 5)).originalTime = ((0 * 60 + 5 : ℕ) : ℚ) ∧
    (startTimer (initTimer 0 5)).running = true :=
  start_arms_with_total (initTimer 0 5) 0 5 rfl (by norm_num [initTimer])
    (by norm_num [initTimer]) (by norm_num)

/-- C2: when remaining goes from 1 to 0 while armed, the tick fires the
completion bundle, disarms the controller immediately, and neither the
re-run of the effect on the resulting state nor a further stray tick can
fire a second completion for the same run. -/
theorem completion_fires_exactly_once (env : Env) (s : TimerState)
    (hrun : s.running = true) (htl : s.timeLeft = some 1) :
    (tick env s).2.isSome = true ∧
    (tick env s).1.running = false ∧
    (tick env s).1.timeLeft = some 0 ∧
    (countdownEffect env (tick env s).1).2 = none ∧
    (tick env (tick env s).1).2 = none := by
  have hc := tickState_complete env s hrun htl
  have h1 : (tick env s).1 = tickState env s := rfl
  refine ⟨hc.2.2.2, by rw [h1]; exact hc.1, by rw [h1]; exact hc.2.1, ?_, ?_⟩
  · rw [countdownEffect_not_running env _ (by rw [h1]; exact hc.1)]
  · show (countdownEffect env _).2 = none
    rw [countdownEffect_not_running env _ (by simpa using hc.1)]

/-- Witness for C2 in the all-channels environment. -/
theorem completion_fires_exactly_once_witness :
    (tick envA stateOne).2.isSome = true ∧
    (tick envA stateOne).1.running = false ∧
    (tick envA stateOne).1.timeLeft = some 0 ∧
    (countdownEffect envA (tick envA stateOne).1).2 = none ∧
    (tick envA (tick envA stateOne).1).2 = none :=
  completion_fires_exactly_once envA stateOne rfl rfl

/-- C3: from a fresh Start whose selection totals R seconds, N
uninterrupted ticks leave remaining = R - N, for every N up to R. -/
theorem ticks_decrement_remaining (env : Env) (s0 : TimerState) (R N : ℕ)
    (_hidle : s0.running = false) (hsel : s0.minutes * 60 + s0.seconds = (R : ℚ))
    (hR : 0 < R) (hN : N ≤ R) :
    (ticksN env N (startTimer s0)).timeLeft = some ((R : ℚ) - (N : ℚ)) := by
  have hpos : (0 : ℚ) < s0.minutes * 60 + s0.seconds := by
    rw [hsel]; exact_mod_cast hR
  have hst := startTimer_of_pos s0 hpos
  have htl : (startTimer s0).timeLeft = some ((R : ℚ)) := by rw [hst.1, hsel]
  exact (ticksN_countdown env N R (startTimer s0) hst.2.2 htl hN).1

/-- Witness for C3: three ticks after starting at 5 seconds. -/
theorem ticks_decrement_remaining_witness :
    (ticksN envA 3 (startTimer (initTimer 0 5))).timeLeft
      = some (((5 : ℕ) : ℚ) - ((3 : ℕ) : ℚ)) :=
  ticks_decrement_remaining envA (initTimer 0 5) 5 3 rfl
    (by norm_num [initTimer]) (by norm_num) (by norm_num)

/-- C4: Stop disarms the controller and clears remaining in every state,
and it is idempotent. -/
theorem stop_clears_and_idempotent (env : Env) (s : TimerState) :
    (stopTimer env s).running = false ∧
    (stopTimer env s).timeLeft = none ∧
    stopTimer env (stopTimer env s) = stopTimer env s := by
  unfold stopTimer
  cases env.audioPresent <;> simp

/-- C5: Start as invokable by the user is rejected with no state change
when the controller is already armed or the selected total is zero. -/
theorem start_rejected_when_armed_or_zero (s : TimerState)
    (h : s.running = true ∨ s.minutes * 60 + s.seconds = 0) :
    pressStart s = s := by
  unfold pressStart
  rcases h with h | h
  · rw [if_pos (Or.inl h)]
  · by_cases hb : (s.running = true) ∨ (s.minutes = 0 ∧ s.seconds = 0)
    · rw [if_pos hb]
    · rw [if_neg hb]
      unfold startTimer
      rw [if_neg (by rw [h]; norm_num)]

/-- Witness for C5: an armed state and the zero selection. -/
theorem start_rejected_when_armed_or_zero_witness :
    pressStart stateArmed = stateArmed ∧
    pressStart (initTimer 0 0) = initTimer 0 0 :=
  ⟨start_rejected_when_armed_or_zero stateArmed (Or.inl rfl),
   start_rejected_when_armed_or_zero (initTimer 0 0)
     (Or.inr (by norm_num [initTimer]))⟩

/-- C6: the progress value is remaining/reference*100 when remaining is
set and 100 when unset; it is 0 at the completion instant, stays within
[0, 100] throughout a run, and never increases across a tick. -/
theorem progress_contract :
    (∀ s : TimerState, s.timeLeft = none → progress s = 100) ∧
    (∀ (s : TimerState) (t : ℚ), s.timeLeft = some t →
      progress s = t / s.originalTime * 100) ∧
    (∀ s : TimerState, s.timeLeft = some 0 → progress s = 0) ∧
    (∀ (env : Env) (s0 : TimerState) (R N : ℕ),
      s0.minutes * 60 + s0.seconds = (R : ℚ) → 0 < R → N ≤ R →
      0 ≤ progress (ticksN env N (startTimer s0)) ∧
      progress (ticksN env N (startTimer s0)) ≤ 100) ∧
    (∀ (env : Env) (s : TimerState) (t : ℚ), s.timeLeft = some t →
      0 < s.originalTime → progress (tickState env s) ≤ progress s) := by
  have hsome : ∀ (s : TimerState) (t : ℚ), s.timeLeft = some t →
      progress s = t / s.originalTime * 100 := by
    intro s t h
    unfold progress
    rw [h]
  refine ⟨?_, hsome, ?_, ?_, ?_⟩
  · intro s h
    unfold progress
    rw [h]
  · intro s h
    rw [hsome s 0 h]
    simp
  · intro env s0 R N hsel hR hN
    have hpos : (0 : ℚ) < s0.minutes * 60 + s0.seconds := by
      rw [hsel]; exact_mod_cast hR
    have hst := startTimer_of_pos s0 hpos
    have htl : (startTimer s0).timeLeft = some ((R : ℚ)) := by rw [hst.1, hsel]
    have horig : (startTimer s0).originalTime = (R : ℚ) := by rw [hst.2.1, hsel]
    have hc := ticksN_countdown env N R (startTimer s0) hst.2.2 htl hN
    rw [hsome _ _ hc.1, hc.2.1, horig]
    have hRq : (0 : ℚ) < (R : ℚ) := by exact_mod_cast hR
    have hNR : ((N : ℚ)) ≤ (R : ℚ) := by exact_mod_cast hN
    have hNq : (0 : ℚ) ≤ (N : ℚ) := Nat.cast_nonneg N
    constructor
    · exact mul_nonneg (div_nonneg (by linarith) (le_of_lt hRq)) (by norm_num)
    · have h1 : ((R : ℚ) - N) / R ≤ 1 := by
        rw [div_le_one hRq]; linarith
      calc ((R : ℚ) - N) / R * 100 ≤ 1 * 100 :=
            mul_le_mul_of_nonneg_right h1 (by norm_num)
        _ = 100 := by norm_num
  · intro env s t h hpos
    have hf := tickState_fields env s
    have htl' : (tickState env s).timeLeft = some (t - 1) := by
      rw [hf.2.2.1, h]; rfl
    rw [hsome _ _ htl', hsome _ _ h, hf.2.2.2]
    have hle : t - 1 ≤ t := by linarith
    gcongr

/-- Witness for C6: the idle default, a mid-run state, the completion
instant, a two-tick run from 5 seconds, and one tick from mid-run. -/
theorem progress_contract_witness :
    progress (initTimer 1 0) = 100 ∧
    progress stateArmed = 30 / stateArmed.originalTime * 100 ∧
    progress stateZero = 0 ∧
    (0 ≤ progress (ticksN envA 2 (startTimer (initTimer 0 5))) ∧
      progress (ticksN envA 2 (startTimer (initTimer 0 5))) ≤ 100) ∧
    progress (tickState envA stateArmed) ≤ progress stateArmed :=
  ⟨progress_contract.1 (initTimer 1 0) rfl,
   progress_contract.2.1 stateArmed 30 rfl,
   progress_contract.2.2.1 stateZero rfl,
   progress_contract.2.2.2.1 envA (initTimer 0 5) 5 2 (by norm_num [initTimer])
     (by norm_num) (by norm_num),
   progress_contract.2.2.2.2 envA stateArmed 30 rfl (by norm_num [stateArmed])⟩

/-- C7 as frozen fails on the code: counting a 5-second run down to zero
disarms the controller but leaves remaining equal to 0, not unset. -/
theorem completed_run_remaining_not_unset_cex :
    (ticksN envA 5 (startTimer (initTimer 0 5))).running = false ∧
    (ticksN envA 5 (startTimer (initTimer 0 5))).timeLeft = some 0 ∧
    ¬ (ticksN envA 5 (startTimer (initTimer 0 5))).timeLeft = none := by
  have hpos : (0 : ℚ) < (initTimer 0 5).minutes * 60 + (initTimer 0 5).seconds := by
    norm_num [initTimer]
  have hst := startTimer_of_pos _ hpos
  have htl : (startTimer (initTimer 0 5)).timeLeft = some (((5 : ℕ)) : ℚ) := by
    rw [hst.1]; norm_num [initTimer]
  have hc := ticksN_countdown envA 5 5 _ hst.2.2 htl le_rfl
  refine ⟨hc.2.2.2 rfl (by norm_num), ?_, ?_⟩
  · rw [hc.1]; norm_num
  · rw [hc.1]; simp

/-- C7 amended: after a run counts down to zero the controller is
disarmed and remaining equals 0; remaining becomes unset only through
Stop or by being overwritten by the next Start. -/
theorem completed_run_disarms (env : Env) (s0 : TimerState) (R : ℕ)
    (hsel : s0.minutes * 60 + s0.seconds = (R : ℚ)) (hR : 0 < R) :
    (ticksN env R (startTimer s0)).running = false ∧
    (ticksN env R (startTimer s0)).timeLeft = some 0 := by
  have hpos : (0 : ℚ) < s0.minutes * 60 + s0.seconds := by
    rw [hsel]; exact_mod_cast hR
  have hst := startTimer_of_pos s0 hpos
  have htl : (startTimer s0).timeLeft = some ((R : ℚ)) := by rw [hst.1, hsel]
  have hc := ticksN_countdown env R R (startTimer s0) hst.2.2 htl le_rfl
  exact ⟨hc.2.2.2 rfl hR, by rw [hc.1]; norm_num⟩

/-- Witness for the amended C7 at the (0 min, 5 sec) scenario. -/
theorem completed_run_disarms_witness :
    (ticksN envA 5 (startTimer (initTimer 0 5))).running = false ∧
    (ticksN envA 5 (startTimer (initTimer 0 5))).timeLeft = some 0 :=
  completed_run_disarms envA (initTimer 0 5) 5 (by norm_num [initTimer])
    (by norm_num)

/-- C8 as frozen fails on the code: the empty JSON array is a corrupt
persisted record, yet loading it yields the pair of undefined values
rather than the default (1, 0). -/
theorem corrupt_record_not_defaulted_cex :
    getSavedTimerState (.parsed (.jarr [])) = (.undefined, .undefined) ∧
    getSavedTimerState (.parsed (.jarr [])) ≠ (.val (.jnum 1), .val (.jnum 0)) := by
  constructor
  · rfl
  · simp [getSavedTimerState]

/-- C8 amended: the persisted selection round-trips for every numeric
pair; a missing or empty record, a record JSON.parse rejects, and a
record parsing to null all load as the default (1, 0) without error,
while records parsing to other JSON values are returned unvalidated. -/
theorem persistence_roundtrip_and_defaults :
    (∀ m s : ℚ, getSavedTimerState (saveTimerSettings m s)
        = (.val (.jnum m), .val (.jnum s))) ∧
    getSavedTimerState .missing = (.val (.jnum 1), .val (.jnum 0)) ∧
    getSavedTimerState .emptyString = (.val (.jnum 1), .val (.jnum 0)) ∧
    getSavedTimerState .malformed = (.val (.jnum 1), .val (.jnum 0)) ∧
    getSavedTimerState (.parsed .jnull) = (.val (.jnum 1), .val (.jnum 0)) :=
  ⟨fun _ _ => rfl, rfl, rfl, rfl, rfl⟩

/-- C9: the three completion channels are independent and best-effort:
in every environment each channel's outcome is a function of that
channel's own availability alone, and a completing tick still disarms
the countdown whatever the channels do. -/
theorem completion_channels_independent :
    (∀ (env : Env) (s : TimerState),
      (notifyUser env s).2.notificationShown
          = (env.notifInWindow && env.notifPermissionGranted) ∧
      (notifyUser env s).2.vibrated = (env.vibrateInNavigator && env.isMobile) ∧
      (notifyUser env s).2.audioPlayAttempted = env.audioPresent) ∧
    (∀ (env : Env) (s : TimerState), s.running = true → s.timeLeft = some 1 →
      (tick env s).1.running = false ∧ (tick env s).2.isSome = true) := by
  constructor
  · intro env s
    unfold notifyUser
    cases h : env.audioPresent <;> simp [h]
  · intro env s hrun htl
    have hc := tickState_complete env s hrun htl
    exact ⟨hc.1, hc.2.2.2⟩

/-- Witness for C9 in an environment where the notification permission
is denied, vibration is unavailable and audio playback rejects. -/
theorem completion_channels_independent_witness :
    ((notifyUser envFail stateOne).2.notificationShown
        = (envFail.notifInWindow && envFail.notifPermissionGranted) ∧
      (notifyUser envFail stateOne).2.vibrated
        = (envFail.vibrateInNavigator && envFail.isMobile) ∧
      (notifyUser envFail stateOne).2.audioPlayAttempted = envFail.audioPresent) ∧
    ((tick envFail stateOne).1.running = false ∧
      (tick envFail stateOne).2.isSome = true) :=
  ⟨completion_channels_independent.1 envFail stateOne,
   completion_channels_independent.2 envFail stateOne rfl rfl⟩

/-- C10: loading performs no shape or range validation: any record that
parses to a JSON object yields its minutes and seconds members exactly
as stored (undefined when absent), so values such as 99 minutes or a
negative seconds count seed the selection at startup via the useState
initialisers (main.jsx:44-46) instead of the default (1, 0). -/
theorem load_performs_no_validation :
    (∀ fields : List (String × JsonVal),
      getSavedTimerState (.parsed (.jobj fields))
        = (jsGet fields "minutes", jsGet fields "seconds")) ∧
    (∀ m s : ℚ,
      getSavedTimerState (.parsed (.jobj [("minutes", .jnum m), ("seconds", .jnum s)]))
        = (.val (.jnum m), .val (.jnum s))) ∧
    getSavedTimerState (.parsed (.jobj [("minutes", .jnum 99), ("seconds", .jnum (-5))]))
        = (.val (.jnum 99), .val (.jnum (-5))) ∧
    getSavedTimerState (.parsed (.jobj [])) = (.undefined, .undefined) ∧
    (∀ m s : ℚ, (initTimer m s).minutes = m ∧ (initTimer m s).seconds = s) :=
  ⟨fun _ => rfl, fun _ _ => rfl, rfl, rfl, fun _ _ => ⟨rfl, rfl⟩⟩

end SimpleTimer
